import Mathlib

/-!
Shallow embedding of `src/app/lib/spotify.ts` (HearItFresh).

Strings are Lean `String`s; JS arrays are Lean `List`s; `async` functions
that call the Spotify Web API are embedded as functions taking the
collaborator call results (`Except`) as parameters, since every call is a
single fallible request-response unit.  A JS value of shape
`{ isError: true, err }` (resp. a caught and returned `err`) is embedded as
the error side of an `Except` (resp. of a `Sum`).
-/

/-- Errors observable in the embedding: `apiFailure` stands for a rejected
catalog call, `typeError` for a JS runtime TypeError raised by a property
access on `undefined`.  The constructor `artistNotFound` is modelled from the
spec: §7 of the spec names a distinct `ArtistNotFound` failure for an empty
artist search, which has no counterpart anywhere in `src/app/lib/spotify.ts`;
it is included only so that claims comparing the code result against it can
be stated. -/
inductive SpotifyError where
  | apiFailure : String → SpotifyError
  | typeError : String → SpotifyError
  | artistNotFound : SpotifyError
deriving Repr, DecidableEq

/-- Tests whether `pat` is a leading segment of `l` (character lists). -/
def leadsWith : List Char → List Char → Bool
  | [], _ => true
  | _ :: _, [] => false
  | a :: as, b :: bs => a == b && leadsWith as bs

/-- Tests whether `pat` occurs contiguously anywhere inside `l`. -/
def hasSubList (pat : List Char) : List Char → Bool
  | [] => leadsWith pat []
  | c :: cs => leadsWith pat (c :: cs) || hasSubList pat cs

/-- JS `s.includes(pat)`: substring containment on strings. -/
def strContains (s pat : String) : Bool :=
  hasSubList pat.data s.data

/-- The blacklist used verbatim (duplicate element included) in both
`getArtistsAlbums` (on album names) and `getTracks` (on track names). -/
def blacklistedWords : List String :=
  ["remix", "mix", "edit", "radio", "- live", " ver.", "live-",
   "version", "tour", "live", "event", "concert", "tour"]

/-- JS `String.prototype.toLowerCase` on the embedded strings: ASCII
per-character lowering (every comparison in the source is against an ASCII
blacklist word). -/
def strToLower (s : String) : String :=
  String.mk (s.data.map Char.toLower)

/-- The keyword-exclusion test of the source: lowercase the name, then
reject when any blacklisted word occurs as a substring
(`blacklistedWords.some((word) => trackName.includes(word))`). -/
def keywordExcluded (name : String) : Bool :=
  blacklistedWords.any (fun word => strContains (strToLower name) word)

/-- `singleTrack` record pushed by `getTracks`. -/
structure SingleTrack where
  name : String
  albumName : String
  uri : String
deriving Repr, DecidableEq

/-- The `Array.prototype.filter` callback of `getTracks`
(`(track, index, self) => ...`): reject on a blacklisted keyword, then
reject when some strictly earlier element of `self` (the array being
filtered) has a literally equal (`===`) name. -/
def trackPasses (self : List SingleTrack) (index : Nat) (track : SingleTrack) : Bool :=
  if keywordExcluded track.name then false
  else if (self.take index).any (fun t => t.name == track.name) then false
  else true

/-- `subTracks.filter((track, index, self) => ...)` of `getTracks`: JS
`filter` feeds each element with its index and the whole array. -/
def filterTracks (self : List SingleTrack) : List SingleTrack :=
  (self.enum.filter (fun p => trackPasses self p.1 p.2)).map Prod.snd

/-- a track entry inside an album object returned by `getAlbums`. -/
structure AlbumTrackItem where
  name : String
  uri : String
deriving Repr, DecidableEq

/-- an album object returned by `getAlbums` (name plus its track list). -/
structure AlbumObject where
  name : String
  tracks : List AlbumTrackItem
deriving Repr, DecidableEq

/-- The nested `forEach` of `getTracks`: flatten one batch response into
`singleTrack` records carrying the originating album name. -/
def flattenBatch (albums : List AlbumObject) : List SingleTrack :=
  (albums.map (fun item => item.tracks.map (fun track =>
    { name := track.name, albumName := item.name, uri := track.uri : SingleTrack }))).flatten

/-- Modelled from the spec: `convertToSubArray` is imported by
`src/app/lib/spotify.ts` from `./utils`, which is not among the provided
sources.  Per §4.1 and §4.3 of the spec it partitions an id sequence into
contiguous chunks of at most the catalog maximum of 20 ids per request,
preserving order, the last chunk possibly shorter, and an empty input
yields no chunks.  `fuel` is an upper bound on the recursion depth making
the recursion structural. -/
def convertToSubArrayGo : Nat → List String → List (List String)
  | 0, _ => []
  | _, [] => []
  | fuel + 1, x :: xs => (x :: xs).take 20 :: convertToSubArrayGo fuel ((x :: xs).drop 20)

/-- Modelled from the spec: see `convertToSubArrayGo`. -/
def convertToSubArray (items : List String) : List (List String) :=
  convertToSubArrayGo items.length items

/-- The batch loop of `getTracks`: for each subarray call `getAlbums`
(embedded as `fetch`), flatten, filter, and collect the per-batch filtered
lists in order; a rejected call makes the whole loop produce the caught
error. -/
def getTracksOnBatches (fetch : List String → Except SpotifyError (List AlbumObject)) :
    List (List String) → Except SpotifyError (List (List SingleTrack))
  | [] => Except.ok []
  | subArray :: rest =>
    match fetch subArray with
    | Except.error e => Except.error e
    | Except.ok data =>
      match getTracksOnBatches fetch rest with
      | Except.error e => Except.error e
      | Except.ok collected => Except.ok (filterTracks (flattenBatch data) :: collected)

/-- `getTracks`: split the album ids, run the batch loop, and return
`tracks.flat()`; a caught error is returned as `{ isError: true, err }`,
embedded as the error side. -/
def getTracks (fetch : List String → Except SpotifyError (List AlbumObject))
    (albums : List String) : Except SpotifyError (List SingleTrack) :=
  match getTracksOnBatches fetch (convertToSubArray albums) with
  | Except.ok collected => Except.ok collected.flatten
  | Except.error e => Except.error e

/-- an album entry returned by `getArtistAlbums` (id and name). -/
structure AlbumItem where
  id : String
  name : String
deriving Repr, DecidableEq

/-- The quota computation at the top of `getArtistsAlbums`:
`maxAlbums = 5` when `artistsLength === 20`, else
`Math.floor(100 / (artistsLength * 2))`. -/
def maxAlbumsFor (artistsLength : Nat) : Nat :=
  if artistsLength = 20 then 5 else 100 / (artistsLength * 2)

/-- The album title filter of `getArtistsAlbums`: keep the albums whose
name survives the keyword-exclusion test. -/
def albumSurvivors (items : List AlbumItem) : List AlbumItem :=
  items.filter (fun album => !keywordExcluded album.name)

/-- The selection tail of `getArtistsAlbums`: return every surviving id
when the quota covers them, else shuffle (embedded as an arbitrary
`shuffle` function standing for the random-comparator sort) and keep the
first `maxAlbums` ids. -/
def getArtistsAlbumsSelect (shuffle : List AlbumItem → List AlbumItem)
    (maxAlbums : Nat) (items : List AlbumItem) : List String :=
  let result := albumSurvivors items
  if result.length ≤ maxAlbums then result.map (fun item => item.id)
  else ((shuffle result).take maxAlbums).map (fun item => item.id)

/-- one artist entry of a search response. -/
structure ArtistItem where
  id : String
deriving Repr, DecidableEq

/-- `_data.body.artists` of `searchArtists` is optional in the source
(`_data.body.artists?.items[0].id`), hence an `Option` around the items. -/
structure SearchArtistsBody where
  artists : Option (List ArtistItem)
deriving Repr, DecidableEq

/-- the message of the TypeError raised by reading `.id` off `undefined`. -/
def typeErrorMsg : String := "TypeError: cannot read id of undefined"

/-- `getArtistsAlbums`: search the artist (limit 1), read
`artists?.items[0].id` — when `artists` is nullish the optional chain
short-circuits to `undefined` (`none`); when `items` is empty, reading
`.id` off `undefined` throws a TypeError — fetch the albums, filter and
select.  The surrounding try/catch returns the caught error itself
(`return err`), embedded as `Sum.inr`. -/
def getArtistsAlbums (searchArtists : String → Except SpotifyError SearchArtistsBody)
    (getArtistAlbums : Option String → Except SpotifyError (List AlbumItem))
    (shuffle : List AlbumItem → List AlbumItem)
    (artist : String) (artistsLength : Nat) : Sum (List String) SpotifyError :=
  let body : Except SpotifyError (List String) :=
    match searchArtists artist with
    | Except.error e => Except.error e
    | Except.ok d =>
      match (match d.artists with
        | none => Except.ok none
        | some [] => Except.error (SpotifyError.typeError typeErrorMsg)
        | some (a :: _) => Except.ok (some a.id)) with
      | Except.error e => Except.error e
      | Except.ok artistId =>
        match getArtistAlbums artistId with
        | Except.error e => Except.error e
        | Except.ok data =>
          Except.ok (getArtistsAlbumsSelect shuffle (maxAlbumsFor artistsLength) data)
  match body with
  | Except.ok ids => Sum.inl ids
  | Except.error e => Sum.inr e

/-- the `playlistDetails` record returned by `createPlayList`. -/
structure PlaylistDetails where
  id : String
  link : String
  name : String
deriving Repr, DecidableEq

/-- the body of a successful `createPlaylist` catalog response:
`uri`, `external_urls.spotify`, `name`. -/
structure CreateResponse where
  uri : String
  externalUrlsSpotify : String
  name : String
deriving Repr, DecidableEq

/-- the arguments `createPlayList` passes to `spotifyApi.createPlaylist`. -/
structure CreatePlaylistRequest where
  name : String
  description : String
  isPublic : Bool
deriving Repr, DecidableEq

/-- the `'new' | 'old'` mode argument. -/
inductive PlayListType where
  | new : PlayListType
  | old : PlayListType
deriving Repr, DecidableEq

/-- result of `createPlayList`: `playlistDetails | { isError: boolean; err }`. -/
inductive CreateResult where
  | details : PlaylistDetails → CreateResult
  | isErrorVal : SpotifyError → CreateResult
deriving Repr, DecidableEq

/-- The request `createPlayList` issues: the if/else-if chain building the
description (mode `new` and mode `old`), the fixed title, `public: true`. -/
def createPlayListRequest (artists : String) (type : PlayListType) : CreatePlaylistRequest :=
  let description :=
    match type with
    | PlayListType.new => "Listen To Something New From " ++ artists
    | PlayListType.old => "Listen to songs from your favourite artists " ++ artists
  { name := "PlayList Generated By HearItFresh"
    description := description
    isPublic := true }

/-- `createPlayList`: issue the request; on success return
`{ id: data.body.uri, link: data.body.external_urls.spotify, name: data.body.name }`,
on a caught error return `{ isError: true, err }`. -/
def createPlayList (api : CreatePlaylistRequest → Except SpotifyError CreateResponse)
    (artists : String) (type : PlayListType) : CreateResult :=
  match api (createPlayListRequest artists type) with
  | Except.ok data =>
    CreateResult.details
      { id := data.uri, link := data.externalUrlsSpotify, name := data.name }
  | Except.error err => CreateResult.isErrorVal err

/-- a `{ uri: string }` track reference for removal. -/
structure TrackUri where
  uri : String
deriving Repr, DecidableEq

/-- `removeTracksFromPlaylists`: `true` on success; on a caught error,
`console.error(error)` then `false`.  The second component records the
arguments passed to `console.error` (the logging side channel). -/
def removeTracksFromPlaylists
    (api : String → List TrackUri → Except SpotifyError Unit)
    (playlistId : String) (tracks : List TrackUri) : Bool × List SpotifyError :=
  match api playlistId tracks with
  | Except.ok _ => (true, [])
  | Except.error e => (false, [e])

/-!  Helper lemmas shared between claims. -/

lemma trackPasses_iff (self : List SingleTrack) (index : Nat) (track : SingleTrack) :
    trackPasses self index track = true ↔
      keywordExcluded track.name = false
      ∧ (self.take index).any (fun t => t.name == track.name) = false := by
  unfold trackPasses
  cases hA : keywordExcluded track.name <;>
    cases hB : (self.take index).any (fun t => t.name == track.name) <;>
      simp [hA, hB]

lemma pairwise_fst_lt_enumFrom {α : Type} (n : Nat) (l : List α) :
    (l.enumFrom n).Pairwise (fun p q => p.1 < q.1) := by
  induction l generalizing n with
  | nil => exact List.Pairwise.nil
  | cons a as ih =>
    rw [List.enumFrom_cons]
    refine List.Pairwise.cons ?_ (ih (n + 1))
    intro q hq
    have := List.le_fst_of_mem_enumFrom hq
    omega

lemma pairwise_fst_lt_enum {α : Type} (l : List α) :
    l.enum.Pairwise (fun p q => p.1 < q.1) :=
  pairwise_fst_lt_enumFrom 0 l

/-- C2: for every totalArtists count `n > 0`, the album quota computed by
`getArtistsAlbums` is 5 when `n = 20` and `floor (100 / (n * 2))` otherwise;
in particular it is 5 for `n = 20` and 10 for `n = 5`. -/
theorem c2_album_quota (n : Nat) (_h : 0 < n) :
    (n = 20 → maxAlbumsFor n = 5)
    ∧ (n ≠ 20 → maxAlbumsFor n = 100 / (n * 2))
    ∧ maxAlbumsFor 20 = 5 ∧ maxAlbumsFor 5 = 10 := by
  refine ⟨fun h20 => ?_, fun h20 => ?_, by decide, by decide⟩
  · simp [maxAlbumsFor, h20]
  · simp [maxAlbumsFor, h20]

/-- witness for C2 at `n = 5`. -/
theorem c2_album_quota_witness :
    0 < 5 ∧ maxAlbumsFor 5 = 100 / (5 * 2) ∧ maxAlbumsFor 5 = 10 :=
  ⟨by decide, (c2_album_quota 5 (by decide)).2.1 (by decide),
    (c2_album_quota 5 (by decide)).2.2.2⟩

/-- C5: keyword exclusion lowercases the name before the substring test
(so `"ReMiX"` is excluded though it literally contains no blacklisted word),
while first-occurrence deduplication compares raw names with `===`
(so any two tracks with literally distinct non-excluded names both survive,
in particular two names differing only in case). -/
theorem c5_case_asymmetry :
    (∀ t u : SingleTrack, keywordExcluded t.name = false →
        keywordExcluded u.name = false → t.name ≠ u.name →
        filterTracks [t, u] = [t, u])
    ∧ keywordExcluded "ReMiX" = true
    ∧ blacklistedWords.all (fun w => !strContains "ReMiX" w) = true
    ∧ filterTracks [⟨"Song", "A", "u1"⟩, ⟨"song", "A", "u2"⟩]
        = [⟨"Song", "A", "u1"⟩, ⟨"song", "A", "u2"⟩]
    ∧ ("Song" ≠ "song") ∧ (strToLower "Song" = strToLower "song") := by
  refine ⟨?_, by decide, by decide, by decide, by decide, by decide⟩
  intro t u ht hu hne
  have hbeq : (t.name == u.name) = false := by
    simpa using hne
  have h0 : trackPasses [t, u] 0 t = true := by
    rw [trackPasses_iff]
    exact ⟨ht, by simp⟩
  have h1 : trackPasses [t, u] 1 u = true := by
    rw [trackPasses_iff]
    refine ⟨hu, ?_⟩
    simp only [List.take, List.any_cons, List.any_nil, Bool.or_false]
    exact hbeq
  simp [filterTracks, List.enum, List.enumFrom, List.filter, h0, h1]

/-- witness for C5: two tracks whose names differ only in case both survive. -/
theorem c5_case_asymmetry_witness :
    filterTracks [⟨"Apple", "A", "u1"⟩, ⟨"aPPle", "A", "u2"⟩]
      = [⟨"Apple", "A", "u1"⟩, ⟨"aPPle", "A", "u2"⟩] :=
  c5_case_asymmetry.1 ⟨"Apple", "A", "u1"⟩ ⟨"aPPle", "A", "u2"⟩
    (by decide) (by decide) (by decide)

/-- C7: `createPlayList` requests a public playlist titled exactly
"PlayList Generated By HearItFresh", with the mode-dependent description
templates; on a catalog error it returns the `{ isError, err }` value
(never throws); the "The Beatles, Queen" / new scenario gives the expected
description. -/
theorem c7_createPlayList_request (artists : String) :
    (createPlayListRequest artists PlayListType.new).description
        = "Listen To Something New From " ++ artists
    ∧ (createPlayListRequest artists PlayListType.old).description
        = "Listen to songs from your favourite artists " ++ artists
    ∧ (∀ type : PlayListType,
        (createPlayListRequest artists type).name = "PlayList Generated By HearItFresh"
        ∧ (createPlayListRequest artists type).isPublic = true)
    ∧ (∀ (type : PlayListType)
        (api : CreatePlaylistRequest → Except SpotifyError CreateResponse)
        (e : SpotifyError), api (createPlayListRequest artists type) = Except.error e →
          createPlayList api artists type = CreateResult.isErrorVal e)
    ∧ (createPlayListRequest "The Beatles, Queen" PlayListType.new).description
        = "Listen To Something New From The Beatles, Queen" := by
  refine ⟨rfl, rfl, fun type => ⟨rfl, rfl⟩, ?_, rfl⟩
  intro type api e h
  unfold createPlayList
  rw [h]

/-- witness for C7: a rejected create call surfaces as the error value. -/
theorem c7_createPlayList_request_witness :
    createPlayList (fun _ => Except.error (SpotifyError.apiFailure "rejected"))
        "The Beatles, Queen" PlayListType.new
      = CreateResult.isErrorVal (SpotifyError.apiFailure "rejected") :=
  (c7_createPlayList_request "The Beatles, Queen").2.2.2.1 PlayListType.new
    (fun _ => Except.error (SpotifyError.apiFailure "rejected"))
    (SpotifyError.apiFailure "rejected") rfl

/-- C10: on success `createPlayList` fills `id` with the catalog response
field `uri` (the playlist URI, not a bare id) and `link` with
`external_urls.spotify`. -/
theorem c10_createPlayList_id_is_uri (artists : String) (type : PlayListType)
    (api : CreatePlaylistRequest → Except SpotifyError CreateResponse)
    (data : CreateResponse)
    (h : api (createPlayListRequest artists type) = Except.ok data) :
    createPlayList api artists type
      = CreateResult.details
          { id := data.uri, link := data.externalUrlsSpotify, name := data.name } := by
  unfold createPlayList
  rw [h]

/-- witness for C10 at a concrete successful response. -/
theorem c10_createPlayList_id_is_uri_witness :
    createPlayList
        (fun _ => Except.ok
          ⟨"spotify:playlist:abc", "https://open.spotify.com/playlist/abc",
            "PlayList Generated By HearItFresh"⟩)
        "Queen" PlayListType.old
      = CreateResult.details
          ⟨"spotify:playlist:abc", "https://open.spotify.com/playlist/abc",
            "PlayList Generated By HearItFresh"⟩ :=
  c10_createPlayList_id_is_uri "Queen" PlayListType.old
    (fun _ => Except.ok
      ⟨"spotify:playlist:abc", "https://open.spotify.com/playlist/abc",
        "PlayList Generated By HearItFresh"⟩)
    ⟨"spotify:playlist:abc", "https://open.spotify.com/playlist/abc",
      "PlayList Generated By HearItFresh"⟩ rfl

/-- C9: `removeTracksFromPlaylists` returns `true` on success, and on a
catalog failure logs the cause via `console.error` and returns `false`
without propagating the error. -/
theorem c9_removeTracks (api : String → List TrackUri → Except SpotifyError Unit)
    (playlistId : String) (tracks : List TrackUri) :
    (∀ u, api playlistId tracks = Except.ok u →
        removeTracksFromPlaylists api playlistId tracks = (true, []))
    ∧ (∀ e, api playlistId tracks = Except.error e →
        removeTracksFromPlaylists api playlistId tracks = (false, [e])) := by
  constructor
  · intro u h
    unfold removeTracksFromPlaylists
    rw [h]
  · intro e h
    unfold removeTracksFromPlaylists
    rw [h]

/-- witness for C9: a rejected removal gives `false` plus the logged cause. -/
theorem c9_removeTracks_witness :
    removeTracksFromPlaylists (fun _ _ => Except.error (SpotifyError.apiFailure "bad id"))
        "playlist1" [] = (false, [SpotifyError.apiFailure "bad id"]) :=
  (c9_removeTracks (fun _ _ => Except.error (SpotifyError.apiFailure "bad id"))
    "playlist1" []).2 (SpotifyError.apiFailure "bad id") rfl

/-- C8 counterexample: when the artist search succeeds but matches nothing
(`artists.items = []`), `getArtistsAlbums` returns the caught TypeError
raised by reading `.id` off `undefined` — not a distinct ArtistNotFound
value, which exists only in the spec. -/
theorem c8_counterexample :
    getArtistsAlbums (fun _ => Except.ok { artists := some [] })
        (fun _ => Except.ok []) id "Unknown Artist" 20
      = Sum.inr (SpotifyError.typeError typeErrorMsg)
    ∧ SpotifyError.typeError typeErrorMsg ≠ SpotifyError.artistNotFound :=
  ⟨rfl, by decide⟩

/-- C8 amended: whenever the artist search returns an empty match list,
`getArtistsAlbums` returns (does not throw) the caught TypeError from the
`items[0].id` access, for every album fetch, shuffle, artist and count. -/
theorem c8_empty_search_caught_typeError
    (getArtistAlbums : Option String → Except SpotifyError (List AlbumItem))
    (shuffle : List AlbumItem → List AlbumItem) (artist : String) (n : Nat) :
    getArtistsAlbums (fun _ => Except.ok { artists := some [] })
        getArtistAlbums shuffle artist n
      = Sum.inr (SpotifyError.typeError typeErrorMsg) := rfl

/-- the album set of the spec scenario for album selection. -/
def exampleAlbums : List AlbumItem :=
  [⟨"id1", "Album (Remix)"⟩, ⟨"id2", "Album"⟩, ⟨"id3", "Album Live"⟩, ⟨"id4", "B"⟩]

/-- C6: `getArtistsAlbums` filters album titles through the blacklist and
then returns all surviving ids when they fit in the quota, else exactly
`quota` ids drawn from the surviving set; never more than
`min quota survivors`; on the spec scenario with `totalArtists = 20` it
returns the ids of "Album" and "B". The random-comparator sort is embedded
as `shuffle`, assumed only to permute its input. -/
theorem c6_album_selection (shuffle : List AlbumItem → List AlbumItem)
    (maxAlbums : Nat) (items : List AlbumItem)
    (hperm : (shuffle (albumSurvivors items)).Perm (albumSurvivors items)) :
    (getArtistsAlbumsSelect shuffle maxAlbums items).length
        ≤ min maxAlbums (albumSurvivors items).length
    ∧ ((albumSurvivors items).length ≤ maxAlbums →
        getArtistsAlbumsSelect shuffle maxAlbums items
          = (albumSurvivors items).map (fun item => item.id))
    ∧ (maxAlbums < (albumSurvivors items).length →
        (getArtistsAlbumsSelect shuffle maxAlbums items).length = maxAlbums
        ∧ ∀ x ∈ getArtistsAlbumsSelect shuffle maxAlbums items,
            x ∈ (albumSurvivors items).map (fun item => item.id))
    ∧ getArtistsAlbumsSelect id (maxAlbumsFor 20) exampleAlbums = ["id2", "id4"] := by
  have hlen := hperm.length_eq
  by_cases hle : (albumSurvivors items).length ≤ maxAlbums
  · refine ⟨?_, fun _ => ?_, fun hgt => absurd hle (by omega), by decide⟩
    · simp [getArtistsAlbumsSelect, hle]
    · simp [getArtistsAlbumsSelect, hle]
  · have hgt : maxAlbums < (albumSurvivors items).length := by omega
    have hsel : getArtistsAlbumsSelect shuffle maxAlbums items
        = ((shuffle (albumSurvivors items)).take maxAlbums).map (fun item => item.id) := by
      simp [getArtistsAlbumsSelect, hle]
    have hlength : (getArtistsAlbumsSelect shuffle maxAlbums items).length = maxAlbums := by
      rw [hsel, List.length_map, List.length_take, hlen]
      omega
    refine ⟨by rw [hlength]; omega, fun hc => absurd hc (by omega), fun _ => ⟨hlength, ?_⟩,
      by decide⟩
    intro x hx
    rw [hsel] at hx
    obtain ⟨a, ha, rfl⟩ := List.mem_map.mp hx
    have ha2 : a ∈ shuffle (albumSurvivors items) := List.mem_of_mem_take ha
    exact List.mem_map_of_mem _ (hperm.mem_iff.mp ha2)

/-- witness for C6: the spec scenario, with the identity permutation
standing in for the shuffle. -/
theorem c6_album_selection_witness :
    getArtistsAlbumsSelect id (maxAlbumsFor 20) exampleAlbums = ["id2", "id4"] :=
  (c6_album_selection id (maxAlbumsFor 20) exampleAlbums (List.Perm.refl _)).2.2.2

lemma getTracksOnBatches_ok (fetch : List String → Except SpotifyError (List AlbumObject))
    (data : List String → List AlbumObject) (bs : List (List String))
    (h : ∀ b ∈ bs, fetch b = Except.ok (data b)) :
    getTracksOnBatches fetch bs
      = Except.ok (bs.map (fun b => filterTracks (flattenBatch (data b)))) := by
  induction bs with
  | nil => rfl
  | cons b rest ih =>
    have hb := h b (List.mem_cons_self b rest)
    have hr := ih (fun x hx => h x (List.mem_cons_of_mem b hx))
    simp [getTracksOnBatches, hb, hr]

/-- per-batch album objects for the two-batch scenario: the second batch is
the one holding id "a2", and both batches carry a track named "Same". -/
def dataC3 : List String → List AlbumObject := fun b =>
  if b.contains "a2"
  then [{ name := "Album2", tracks := [{ name := "Same", uri := "u2" }] }]
  else [{ name := "Album1", tracks := [{ name := "Same", uri := "u1" }] }]

/-- a catalog stub that answers every batch successfully with `dataC3`. -/
def fetchC3 : List String → Except SpotifyError (List AlbumObject) := fun b =>
  Except.ok (dataC3 b)

/-- 21 album ids, which split into two batches of 20 and 1. -/
def albums21 : List String := List.replicate 20 "a1" ++ ["a2"]

/-- C3: when every batch fetch succeeds, `getTracks` equals the
concatenation, in batch order, of the Track Filter applied independently to
each flattened batch; on a concrete 21-album run the track name "Same",
appearing in both batches, is kept in both. -/
theorem c3_per_batch_dedup_scope
    (fetch : List String → Except SpotifyError (List AlbumObject))
    (data : List String → List AlbumObject) (albums : List String)
    (h : ∀ b ∈ convertToSubArray albums, fetch b = Except.ok (data b)) :
    getTracks fetch albums
      = Except.ok (((convertToSubArray albums).map
          (fun b => filterTracks (flattenBatch (data b)))).flatten)
    ∧ getTracks fetchC3 albums21
        = Except.ok [⟨"Same", "Album1", "u1"⟩, ⟨"Same", "Album2", "u2"⟩] := by
  constructor
  · unfold getTracks
    rw [getTracksOnBatches_ok fetch data _ h]
  · rfl

/-- witness for C3: both batches of the 21-album run keep their copy of the
track named "Same". -/
theorem c3_per_batch_dedup_scope_witness :
    getTracks fetchC3 albums21
      = Except.ok [⟨"Same", "Album1", "u1"⟩, ⟨"Same", "Album2", "u2"⟩]
    ∧ (⟨"Same", "Album1", "u1"⟩ : SingleTrack).name
        = (⟨"Same", "Album2", "u2"⟩ : SingleTrack).name :=
  ⟨(c3_per_batch_dedup_scope fetchC3 dataC3 albums21 (fun _ _ => rfl)).2, rfl⟩

lemma getTracksOnBatches_error (fetch : List String → Except SpotifyError (List AlbumObject))
    (bs : List (List String))
    (h : ∃ b ∈ bs, ∃ e, fetch b = Except.error e) :
    ∃ e2, getTracksOnBatches fetch bs = Except.error e2 := by
  induction bs with
  | nil => simp at h
  | cons b rest ih =>
    cases hf : fetch b with
    | error e => exact ⟨e, by simp [getTracksOnBatches, hf]⟩
    | ok data =>
      obtain ⟨b0, hb0, e0, he0⟩ := h
      rcases List.mem_cons.mp hb0 with rfl | hmem
      · rw [hf] at he0
        cases he0
      · obtain ⟨e2, he2⟩ := ih ⟨b0, hmem, e0, he0⟩
        refine ⟨e2, ?_⟩
        simp [getTracksOnBatches, hf, he2]

/-- C4: if any batch fetch fails, `getTracks` returns the caught error
value and never a track list — partial results from earlier successful
batches are discarded entirely. -/
theorem c4_batch_failure_aborts
    (fetch : List String → Except SpotifyError (List AlbumObject))
    (albums : List String)
    (h : ∃ b ∈ convertToSubArray albums, ∃ e, fetch b = Except.error e) :
    ∃ e2, getTracks fetch albums = Except.error e2
      ∧ ∀ ts, getTracks fetch albums ≠ Except.ok ts := by
  obtain ⟨e2, he2⟩ := getTracksOnBatches_error fetch _ h
  refine ⟨e2, ?_, ?_⟩
  · unfold getTracks
    rw [he2]
  · intro ts hts
    unfold getTracks at hts
    rw [he2] at hts
    cases hts

/-- a catalog stub whose second batch (the one holding id "a2") is
rejected; the first batch still succeeds. -/
def fetchC4 : List String → Except SpotifyError (List AlbumObject) := fun b =>
  if b.contains "a2"
  then Except.error (SpotifyError.apiFailure "getAlbums rejected")
  else Except.ok [{ name := "Album1", tracks := [{ name := "Same", uri := "u1" }] }]

/-- witness for C4: with 21 albums the first batch succeeds, the second
fails, and the whole aggregation returns an error. -/
theorem c4_batch_failure_aborts_witness :
    ∃ e2, getTracks fetchC4 albums21 = Except.error e2
      ∧ ∀ ts, getTracks fetchC4 albums21 ≠ Except.ok ts :=
  c4_batch_failure_aborts fetchC4 albums21
    ⟨["a2"], by decide, SpotifyError.apiFailure "getAlbums rejected", rfl⟩

/-- C1: for every input batch, the output of the Track Filter has pairwise
distinct (case-sensitively compared) names, is a subsequence of the input
preserving relative order, and keeps the earliest occurrence of every
name-equality class that is not keyword-excluded. -/
theorem c1_track_filter (l : List SingleTrack) :
    List.Pairwise (fun a b => a.name ≠ b.name) (filterTracks l)
    ∧ List.Sublist (filterTracks l) l
    ∧ ∀ i (hi : i < l.length),
        keywordExcluded (l[i].name) = false →
        (∀ j (hj : j < l.length), j < i → (l[j]).name ≠ (l[i]).name) →
        l[i] ∈ filterTracks l := by
  refine ⟨?_, ?_, ?_⟩
  · -- no two surviving items share a name
    unfold filterTracks
    rw [List.pairwise_map]
    have hpw : (l.enum.filter (fun p => trackPasses l p.1 p.2)).Pairwise
        (fun p q => p.1 < q.1) :=
      (pairwise_fst_lt_enum l).filter _
    refine hpw.imp_of_mem ?_
    intro p q hp hq hlt
    obtain ⟨pi, pa⟩ := p
    obtain ⟨qi, qa⟩ := q
    obtain ⟨hpe, _⟩ := List.mem_filter.mp hp
    obtain ⟨hqe, hqP⟩ := List.mem_filter.mp hq
    have hpg : l[pi]? = some pa := by
      have := List.mk_mem_enum_iff_getElem?.mp hpe
      simpa using this
    obtain ⟨_, hq2⟩ := (trackPasses_iff l qi qa).mp (by simpa using hqP)
    have htake : (l.take qi)[pi]? = some pa := by
      rw [List.getElem?_take_of_lt hlt]
      exact hpg
    have hmem : pa ∈ l.take qi := List.getElem?_mem htake
    have hne := (List.any_eq_false.mp hq2) pa hmem
    intro heq
    exact hne (by simpa using heq)
  · -- the output is an order-preserving subsequence of the input
    unfold filterTracks
    have h1 : (l.enum.filter (fun p => trackPasses l p.1 p.2)).Sublist l.enum :=
      List.filter_sublist _
    have h2 := h1.map Prod.snd
    rwa [List.enum_map_snd] at h2
  · -- the earliest non-excluded occurrence of each name survives
    intro i hi hkw hfirst
    have hP : trackPasses l i (l[i]) = true := by
      rw [trackPasses_iff]
      refine ⟨hkw, ?_⟩
      rw [List.any_eq_false]
      intro t ht
      obtain ⟨j, hj, hjt⟩ := List.mem_take_iff_getElem.mp ht
      have hji : j < i := lt_of_lt_of_le hj (min_le_left _ _)
      have hjl : j < l.length := lt_of_lt_of_le hj (min_le_right _ _)
      intro hbeq
      have hteq : t.name = (l[i]).name := by simpa using hbeq
      exact hfirst j hjl hji (by rw [hjt]; exact hteq)
    have henum : (i, l[i]) ∈ l.enum :=
      List.mk_mem_enum_iff_getElem?.mpr (by simp [hi])
    have hf : (i, l[i]) ∈ l.enum.filter (fun p => trackPasses l p.1 p.2) :=
      List.mem_filter.mpr ⟨henum, by simpa using hP⟩
    exact List.mem_map_of_mem Prod.snd hf

/-- witness for C1: the first occurrence of the duplicated name survives. -/
theorem c1_track_filter_witness :
    (⟨"Hello", "Al", "u1"⟩ : SingleTrack)
      ∈ filterTracks [⟨"Hello", "Al", "u1"⟩, ⟨"Hello", "Al", "u2"⟩] :=
  (c1_track_filter [⟨"Hello", "Al", "u1"⟩, ⟨"Hello", "Al", "u2"⟩]).2.2 0 (by decide)
    (by decide) (fun j hj hj0 => absurd hj0 (Nat.not_lt_zero j))
